import Mathlib

/-!
Shallow embedding of `src/calculator.py` (a pydantic-validated geometry
module) together with proofs of its specified properties.

Modelling conventions:
* Python `float` field values are modelled as rationals (`ℚ`): every finite
  IEEE double is a rational, and the module performs no operation that
  produces NaN or infinity from finite validated inputs.  This keeps the
  construction-time validation (`value <= 0` tests) decidable/executable,
  exactly as it is in the source.
* The geometric formulas are read in exact real arithmetic (`ℝ`), with
  `math.pi` modelled as the real number π; the spec states the formulas up
  to floating-point tolerance and this is their exact content.
* Raising `ValidationError` is modelled with `Except ValidationError`:
  a constructor either returns `Except.error e` (the raise — no instance
  is produced) or `Except.ok` carrying the fully constructed instance.
-/

namespace Calculator

/-- The single error kind of the module: pydantic's `ValidationError`,
carrying a diagnostic message. -/
structure ValidationError where
  msg : String
deriving DecidableEq, Repr

/-- Pydantic's `.json()` serialization of a `ValidationError`, as printed by
the convenience wrappers (`print(e.json())`). Modelled abstractly as the
diagnostic text carried by the error. -/
def ValidationError.json (e : ValidationError) : String := e.msg

/-- The `Field(..., gt=0, ...)` constraint pydantic applies to every numeric
field of the module before the custom validator runs: accept the value iff
it is strictly greater than 0, otherwise raise. -/
def fieldGtZero (value : ℚ) (msg : String) : Except ValidationError ℚ :=
  if value > 0 then Except.ok value else Except.error ⟨msg⟩

/-- Class `Circle` (src/calculator.py line 37): field `radius: float`. -/
structure Circle where
  radius : ℚ
deriving DecidableEq, Repr

/-- Validator `Circle.check_positive` (line 46): the `@validator('radius')` body —
`if value <= 0: raise ValueError(...)`, else return the value unchanged. -/
def Circle.check_positive (value : ℚ) : Except ValidationError ℚ :=
  if value ≤ 0 then Except.error ⟨"Radius must be greater than zero."⟩
  else Except.ok value

/-- Construction `Circle(radius=...)`: pydantic runs the `Field(gt=0)`
constraint, then the `check_positive` validator, and only if both succeed
produces an instance holding the validated value. -/
def Circle.validate (radius : ℚ) : Except ValidationError Circle :=
  match fieldGtZero radius "ensure this value is greater than 0" with
  | Except.error e => Except.error e
  | Except.ok r =>
    match Circle.check_positive r with
    | Except.error e => Except.error e
    | Except.ok r => Except.ok ⟨r⟩

/-- Class `Square` (line 82): field `side: float`. -/
structure Square where
  side : ℚ
deriving DecidableEq, Repr

/-- Validator `Square.check_positive` (line 91). -/
def Square.check_positive (value : ℚ) : Except ValidationError ℚ :=
  if value ≤ 0 then Except.error ⟨"Side must be greater than zero."⟩
  else Except.ok value

/-- Construction `Square(side=...)`. -/
def Square.validate (side : ℚ) : Except ValidationError Square :=
  match fieldGtZero side "ensure this value is greater than 0" with
  | Except.error e => Except.error e
  | Except.ok s =>
    match Square.check_positive s with
    | Except.error e => Except.error e
    | Except.ok s => Except.ok ⟨s⟩

/-- Class `Triangle` (line 127): fields `base: float`, `height: float`. -/
structure Triangle where
  base : ℚ
  height : ℚ
deriving DecidableEq, Repr

/-- Validator `Triangle.check_positive` (line 137): the `@validator('base', 'height')`
body, applied to each of the two fields independently. -/
def Triangle.check_positive (value : ℚ) : Except ValidationError ℚ :=
  if value ≤ 0 then Except.error ⟨"Base and height must be greater than zero."⟩
  else Except.ok value

/-- Construction `Triangle(base=..., height=...)`: each field is validated
independently (field constraint then validator), in declaration order. -/
def Triangle.validate (base height : ℚ) : Except ValidationError Triangle :=
  match fieldGtZero base "ensure this value is greater than 0" with
  | Except.error e => Except.error e
  | Except.ok b =>
    match Triangle.check_positive b with
    | Except.error e => Except.error e
    | Except.ok b =>
      match fieldGtZero height "ensure this value is greater than 0" with
      | Except.error e => Except.error e
      | Except.ok h =>
        match Triangle.check_positive h with
        | Except.error e => Except.error e
        | Except.ok h => Except.ok ⟨b, h⟩

/-- Class `Cube` (line 176): field `side: float`. -/
structure Cube where
  side : ℚ
deriving DecidableEq, Repr

/-- Validator `Cube.check_positive` (line 185). -/
def Cube.check_positive (value : ℚ) : Except ValidationError ℚ :=
  if value ≤ 0 then Except.error ⟨"Side length must be greater than zero."⟩
  else Except.ok value

/-- Construction `Cube(side=...)`. -/
def Cube.validate (side : ℚ) : Except ValidationError Cube :=
  match fieldGtZero side "ensure this value is greater than 0" with
  | Except.error e => Except.error e
  | Except.ok s =>
    match Cube.check_positive s with
    | Except.error e => Except.error e
    | Except.ok s => Except.ok ⟨s⟩

/-- Method `Circle.area` (line 64): `pi * self.radius ** 2`. -/
noncomputable def Circle.area (c : Circle) : ℝ :=
  Real.pi * (c.radius : ℝ) ^ 2

/-- Method `Circle.volume` (line 73): `(4/3) * pi * self.radius ** 3`. -/
noncomputable def Circle.volume (c : Circle) : ℝ :=
  (4 / 3) * Real.pi * (c.radius : ℝ) ^ 3

/-- Method `Square.area` (line 109): `self.side ** 2`. -/
noncomputable def Square.area (s : Square) : ℝ :=
  (s.side : ℝ) ^ 2

/-- Method `Square.volume` (line 118): `self.side ** 3`. -/
noncomputable def Square.volume (s : Square) : ℝ :=
  (s.side : ℝ) ^ 3

/-- Method `Triangle.area` (line 155): `(self.base * self.height) / 2`. -/
noncomputable def Triangle.area (t : Triangle) : ℝ :=
  ((t.base : ℝ) * (t.height : ℝ)) / 2

/-- Method `Triangle.volume` (line 164): `(self.base * self.height) / 2 * self.base`. -/
noncomputable def Triangle.volume (t : Triangle) : ℝ :=
  ((t.base : ℝ) * (t.height : ℝ)) / 2 * (t.base : ℝ)

/-- Method `Cube.area` (line 203): `6 * (self.side ** 2)`. -/
noncomputable def Cube.area (c : Cube) : ℝ :=
  6 * (c.side : ℝ) ^ 2

/-- Method `Cube.volume` (line 212): `self.side ** 3`. -/
noncomputable def Cube.volume (c : Cube) : ℝ :=
  (c.side : ℝ) ^ 3

/-- A value of the abstract `Shape` type (line 8): in the module the
abstraction is closed over exactly the four variants, so a polymorphic
shape is one of them.  `List Shape` is the element type of the heterogeneous
sequences taken by `total_area_optimized`. -/
inductive Shape where
  | circle (c : Circle)
  | square (s : Square)
  | triangle (t : Triangle)
  | cube (c : Cube)
deriving DecidableEq, Repr

/-- Polymorphic dispatch of `shape.area()` to the variant's method. -/
noncomputable def Shape.area : Shape → ℝ
  | .circle c => c.area
  | .square s => s.area
  | .triangle t => t.area
  | .cube c => c.area

/-- Polymorphic dispatch of `shape.volume()` to the variant's method. -/
noncomputable def Shape.volume : Shape → ℝ
  | .circle c => c.volume
  | .square s => s.volume
  | .triangle t => t.volume
  | .cube c => c.volume

/-- The construction-time invariant of a shape instance: every numeric
field is strictly positive (this is what pydantic's `gt=0` constraint and
the `check_positive` validators enforce). -/
def Shape.valid : Shape → Prop
  | .circle c => 0 < c.radius
  | .square s => 0 < s.side
  | .triangle t => 0 < t.base ∧ 0 < t.height
  | .cube c => 0 < c.side

instance : DecidablePred Shape.valid := by
  intro s
  cases s <;> simp only [Shape.valid] <;> infer_instance

/-- The body of the `try` block in `calculate_area` (line 233):
`shape.area()`.  The `area` methods of all four variants perform pure field
arithmetic and can raise nothing, so as a fallible Python expression this
always evaluates to its value. -/
noncomputable def tryArea (shape : Shape) : Except ValidationError ℝ :=
  Except.ok shape.area

/-- The body of the `try` block in `calculate_volume` (line 249):
`shape.volume()`; like `tryArea`, pure field arithmetic that raises
nothing. -/
noncomputable def tryVolume (shape : Shape) : Except ValidationError ℝ :=
  Except.ok shape.volume

/-- The `try ... except ValidationError as e: print(e.json()); return 0.0`
construct shared by both convenience wrappers (lines 232–236 and 248–252):
a successful computation returns its value with nothing printed; a raised
`ValidationError` is caught and turned into the sentinel `0.0` together
with the printed `e.json()` diagnostic.  The result pairs the returned
float with the diagnostic printed on the caught error (`none` when nothing
is printed). -/
noncomputable def handleValidation (computation : Except ValidationError ℝ) :
    ℝ × Option String :=
  match computation with
  | Except.ok a => (a, none)
  | Except.error e => (0, some e.json)

/-- Wrapper `calculate_area` (line 222): `try: return shape.area() except
ValidationError as e: print(e.json()); return 0.0`. -/
noncomputable def calculate_area (shape : Shape) : ℝ × Option String :=
  handleValidation (tryArea shape)

/-- Wrapper `calculate_volume` (line 238): same shape as `calculate_area` over
`shape.volume()`. -/
noncomputable def calculate_volume (shape : Shape) : ℝ × Option String :=
  handleValidation (tryVolume shape)

/-- Function `total_area_optimized` (line 255): `sum(shape.area() for shape in
shapes)`.  Python's `sum` folds `+` from the left over the generator,
starting from `0`, visiting the elements in sequence order. -/
noncomputable def total_area_optimized (shapes : List Shape) : ℝ :=
  shapes.foldl (fun acc shape => acc + shape.area) 0

/-! ## Closed forms of the validated constructors -/

/-- Closed form of `Circle(radius=...)`: succeeds with exactly the given
field iff the field is positive. -/
theorem circle_validate_eq (r : ℚ) :
    Circle.validate r =
      if 0 < r then Except.ok ⟨r⟩
      else Except.error ⟨"ensure this value is greater than 0"⟩ := by
  rcases lt_or_le 0 r with h1 | h1
  · rw [if_pos h1]
    simp [Circle.validate, fieldGtZero, Circle.check_positive, h1, not_le.mpr h1]
  · rw [if_neg (not_lt.mpr h1)]
    simp [Circle.validate, fieldGtZero, not_lt.mpr h1]

/-- Closed form of `Square(side=...)`. -/
theorem square_validate_eq (s : ℚ) :
    Square.validate s =
      if 0 < s then Except.ok ⟨s⟩
      else Except.error ⟨"ensure this value is greater than 0"⟩ := by
  rcases lt_or_le 0 s with h1 | h1
  · rw [if_pos h1]
    simp [Square.validate, fieldGtZero, Square.check_positive, h1, not_le.mpr h1]
  · rw [if_neg (not_lt.mpr h1)]
    simp [Square.validate, fieldGtZero, not_lt.mpr h1]

/-- Closed form of `Triangle(base=..., height=...)`: both fields are
validated, in declaration order. -/
theorem triangle_validate_eq (b h : ℚ) :
    Triangle.validate b h =
      if 0 < b then
        if 0 < h then Except.ok ⟨b, h⟩
        else Except.error ⟨"ensure this value is greater than 0"⟩
      else Except.error ⟨"ensure this value is greater than 0"⟩ := by
  rcases lt_or_le 0 b with h1 | h1
  · rw [if_pos h1]
    rcases lt_or_le 0 h with h2 | h2
    · rw [if_pos h2]
      simp [Triangle.validate, fieldGtZero, Triangle.check_positive, h1, h2,
        not_le.mpr h1, not_le.mpr h2]
    · rw [if_neg (not_lt.mpr h2)]
      simp [Triangle.validate, fieldGtZero, Triangle.check_positive, h1,
        not_le.mpr h1, not_lt.mpr h2]
  · rw [if_neg (not_lt.mpr h1)]
    simp [Triangle.validate, fieldGtZero, not_lt.mpr h1]

/-- Closed form of `Cube(side=...)`. -/
theorem cube_validate_eq (s : ℚ) :
    Cube.validate s =
      if 0 < s then Except.ok ⟨s⟩
      else Except.error ⟨"ensure this value is greater than 0"⟩ := by
  rcases lt_or_le 0 s with h1 | h1
  · rw [if_pos h1]
    simp [Cube.validate, fieldGtZero, Cube.check_positive, h1, not_le.mpr h1]
  · rw [if_neg (not_lt.mpr h1)]
    simp [Cube.validate, fieldGtZero, not_lt.mpr h1]

/-! ## Claim theorems -/

/-- C1: For every shape variant (Circle, Square, Triangle, Cube),
construction raises a `ValidationError` if and only if some required
numeric field is ≤ 0, and when it raises, no instance is produced — every
instance construction does produce has all its fields strictly positive. -/
theorem construction_validation (r s b h c : ℚ) :
    ((∃ e, Circle.validate r = Except.error e) ↔ r ≤ 0)
  ∧ (∀ x, Circle.validate r = Except.ok x → 0 < x.radius)
  ∧ ((∃ e, Square.validate s = Except.error e) ↔ s ≤ 0)
  ∧ (∀ x, Square.validate s = Except.ok x → 0 < x.side)
  ∧ ((∃ e, Triangle.validate b h = Except.error e) ↔ (b ≤ 0 ∨ h ≤ 0))
  ∧ (∀ x, Triangle.validate b h = Except.ok x → 0 < x.base ∧ 0 < x.height)
  ∧ ((∃ e, Cube.validate c = Except.error e) ↔ c ≤ 0)
  ∧ (∀ x, Cube.validate c = Except.ok x → 0 < x.side) := by
  rw [circle_validate_eq, square_validate_eq, triangle_validate_eq, cube_validate_eq]
  split_ifs with hr hs hb hh hc <;> simp_all [not_lt]

/-- Witness for C1: `Circle(radius=-5)` raises, and `Cube(side=3)` yields an
instance with a positive side. -/
theorem construction_validation_witness :
    (∃ e, Circle.validate (-5) = Except.error e) ∧ (0 : ℚ) < (Cube.mk 3).side :=
  ⟨(construction_validation (-5) 1 1 1 3).1.mpr (by norm_num),
   (construction_validation (-5) 1 1 1 3).2.2.2.2.2.2.2 ⟨3⟩
     (by rw [cube_validate_eq, if_pos]; norm_num)⟩

/-- Folding the area accumulation of `total_area_optimized` from any initial
accumulator adds the sum of the element areas, keeping sequence order. -/
theorem foldl_area_eq (shapes : List Shape) :
    ∀ a : ℝ, shapes.foldl (fun acc shape => acc + shape.area) a
      = a + (shapes.map Shape.area).sum := by
  induction shapes with
  | nil => intro a; simp
  | cons s l ih => intro a; simp [List.foldl_cons, ih, add_assoc]

/-- C2: `total_area_optimized` returns the arithmetic sum of each element's
`area()`, visiting every element exactly once in sequence order (it equals
the sum of the area-image of the list); for the empty list it returns 0; and
the numeric result is invariant under permutation of the sequence. -/
theorem total_area_optimized_spec (shapes shapes' : List Shape) :
    total_area_optimized shapes = (shapes.map Shape.area).sum
  ∧ total_area_optimized [] = 0
  ∧ (shapes.Perm shapes' →
      total_area_optimized shapes = total_area_optimized shapes') := by
  have key : ∀ l : List Shape, total_area_optimized l = (l.map Shape.area).sum := by
    intro l
    simpa using foldl_area_eq l 0
  refine ⟨key shapes, rfl, fun hp => ?_⟩
  rw [key shapes, key shapes']
  exact List.Perm.sum_eq (hp.map Shape.area)

/-- Witness for C2: swapping two concrete shapes leaves the total area
unchanged. -/
theorem total_area_optimized_spec_witness :
    total_area_optimized [Shape.square ⟨4⟩, Shape.cube ⟨2⟩]
      = total_area_optimized [Shape.cube ⟨2⟩, Shape.square ⟨4⟩] :=
  (total_area_optimized_spec [Shape.square ⟨4⟩, Shape.cube ⟨2⟩]
      [Shape.cube ⟨2⟩, Shape.square ⟨4⟩]).2.2 (List.Perm.swap _ _ _)

/-- C3: for every radius > 0, `Circle(radius)` constructs successfully and
the instance's `area()` is π × radius² and its `volume()` is
(4/3) × π × radius³. -/
theorem circle_area_volume (r : ℚ) (hr : 0 < r) :
    ∃ c, Circle.validate r = Except.ok c ∧
      c.area = Real.pi * (r : ℝ) ^ 2 ∧
      c.volume = 4 / 3 * Real.pi * (r : ℝ) ^ 3 :=
  ⟨⟨r⟩, by rw [circle_validate_eq, if_pos hr], rfl, rfl⟩

/-- Witness for C3 at radius 5 (the spec's concrete scenario). -/
theorem circle_area_volume_witness :
    ∃ c, Circle.validate 5 = Except.ok c ∧
      c.area = Real.pi * (5 : ℝ) ^ 2 ∧
      c.volume = 4 / 3 * Real.pi * (5 : ℝ) ^ 3 := by
  simpa using circle_area_volume 5 (by norm_num)

/-- C4: for every base > 0 and height > 0, `Triangle(base, height)`
constructs successfully, its `area()` is (base × height) / 2 and its
`volume()` is exactly (base × height / 2) × base. -/
theorem triangle_area_volume (b h : ℚ) (hb : 0 < b) (hh : 0 < h) :
    ∃ t, Triangle.validate b h = Except.ok t ∧
      t.area = (b : ℝ) * (h : ℝ) / 2 ∧
      t.volume = (b : ℝ) * (h : ℝ) / 2 * (b : ℝ) :=
  ⟨⟨b, h⟩, by rw [triangle_validate_eq, if_pos hb, if_pos hh], rfl, rfl⟩

/-- Witness for C4 at base 3, height 4 (the spec's concrete scenario). -/
theorem triangle_area_volume_witness :
    ∃ t, Triangle.validate 3 4 = Except.ok t ∧
      t.area = (3 : ℝ) * (4 : ℝ) / 2 ∧
      t.volume = (3 : ℝ) * (4 : ℝ) / 2 * (3 : ℝ) := by
  simpa using triangle_area_volume 3 4 (by norm_num) (by norm_num)

/-- C5: for every side > 0, `Square(side)` constructs successfully, its
`area()` is side² and its `volume()` is side³. -/
theorem square_area_volume (s : ℚ) (hs : 0 < s) :
    ∃ x, Square.validate s = Except.ok x ∧
      x.area = (s : ℝ) ^ 2 ∧
      x.volume = (s : ℝ) ^ 3 :=
  ⟨⟨s⟩, by rw [square_validate_eq, if_pos hs], rfl, rfl⟩

/-- Witness for C5 at side 4 (the spec's concrete scenario). -/
theorem square_area_volume_witness :
    ∃ x, Square.validate 4 = Except.ok x ∧
      x.area = (4 : ℝ) ^ 2 ∧
      x.volume = (4 : ℝ) ^ 3 := by
  simpa using square_area_volume 4 (by norm_num)

/-- C6: for every side > 0, `Cube(side)` constructs successfully, its
`area()` is the surface area 6 × side² (which differs from the single-face
area side² whenever side ≠ 0), and its `volume()` is side³. -/
theorem cube_area_volume (s : ℚ) (hs : 0 < s) :
    ∃ x, Cube.validate s = Except.ok x ∧
      x.area = 6 * (s : ℝ) ^ 2 ∧
      x.area ≠ (s : ℝ) ^ 2 ∧
      x.volume = (s : ℝ) ^ 3 := by
  refine ⟨⟨s⟩, by rw [cube_validate_eq, if_pos hs], rfl, ?_, rfl⟩
  have hs' : (0 : ℝ) < (s : ℝ) := by exact_mod_cast hs
  show 6 * (s : ℝ) ^ 2 ≠ (s : ℝ) ^ 2
  nlinarith [sq_nonneg (s : ℝ)]

/-- Witness for C6 at side 3 (the spec's concrete scenario). -/
theorem cube_area_volume_witness :
    ∃ x, Cube.validate 3 = Except.ok x ∧
      x.area = 6 * (3 : ℝ) ^ 2 ∧
      x.area ≠ (3 : ℝ) ^ 2 ∧
      x.volume = (3 : ℝ) ^ 3 := by
  simpa using cube_area_volume 3 (by norm_num)

/-- Field assignment `instance.radius = value` on a constructed `Circle`.
Modelled from the pydantic `BaseModel` configuration actually in force for
`Shape` (src/calculator.py line 8 declares no `Config`): pydantic models
allow field assignment by default (`Config.allow_mutation = True`) and do
not re-run field constraints or validators on assignment
(`validate_assignment = False`), so assignment stores the given value in
the field unconditionally. -/
def Circle.assignRadius (_c : Circle) (value : ℚ) : Circle :=
  ⟨value⟩

/-- C7 counterexample: shape instances are not immutable. `Circle(radius=5)`
constructs a valid instance, yet the field assignment `instance.radius = -5`
permitted by the module's (default) pydantic configuration changes the
field after construction — even to a value the constructor would have
rejected. -/
theorem shape_immutability_counterexample :
    Circle.validate 5 = Except.ok ⟨5⟩
    ∧ (Circle.assignRadius ⟨5⟩ (-5)).radius ≠ (Circle.mk 5).radius
    ∧ (Circle.assignRadius ⟨5⟩ (-5)).radius ≤ 0 := by
  refine ⟨?_, by norm_num [Circle.assignRadius], by norm_num [Circle.assignRadius]⟩
  rw [circle_validate_eq, if_pos]
  norm_num

/-- C7 (amended): every shape instance is a value object whose fields are
fixed to exactly the validated construction inputs, and no operation
defined by the module mutates them (all module operations are pure
functions; instances with equal fields are indistinguishable values) —
but Python field assignment, which the module's default pydantic
configuration leaves enabled and unvalidated, can change fields after
construction. -/
theorem shape_value_semantics (r s b h c : ℚ) :
    (∀ x, Circle.validate r = Except.ok x → x.radius = r)
  ∧ (∀ x, Square.validate s = Except.ok x → x.side = s)
  ∧ (∀ x, Triangle.validate b h = Except.ok x → x.base = b ∧ x.height = h)
  ∧ (∀ x, Cube.validate c = Except.ok x → x.side = c)
  ∧ (∀ x y : Circle, x.radius = y.radius → x = y)
  ∧ (∀ x y : Square, x.side = y.side → x = y)
  ∧ (∀ x y : Triangle, x.base = y.base → x.height = y.height → x = y)
  ∧ (∀ x y : Cube, x.side = y.side → x = y) := by
  rw [circle_validate_eq, square_validate_eq, triangle_validate_eq, cube_validate_eq]
  refine ⟨?_, ?_, ?_, ?_, ?_, ?_, ?_, ?_⟩
  · split_ifs with hcond
    · intro x hx
      injection hx with h2
      subst h2
      rfl
    · intro x hx
      exact absurd hx (by simp)
  · split_ifs with hcond
    · intro x hx
      injection hx with h2
      subst h2
      rfl
    · intro x hx
      exact absurd hx (by simp)
  · split_ifs with hcond hcond'
    · intro x hx
      injection hx with h2
      subst h2
      exact ⟨rfl, rfl⟩
    · intro x hx
      exact absurd hx (by simp)
    · intro x hx
      exact absurd hx (by simp)
  · split_ifs with hcond
    · intro x hx
      injection hx with h2
      subst h2
      rfl
    · intro x hx
      exact absurd hx (by simp)
  · intro x y hxy
    cases x; cases y; simp_all
  · intro x y hxy
    cases x; cases y; simp_all
  · intro x y hxy hxy'
    cases x; cases y; simp_all
  · intro x y hxy
    cases x; cases y; simp_all

/-- Witness for the amended C7: `Circle(radius=2)` stores exactly radius 2. -/
theorem shape_value_semantics_witness :
    (Circle.mk 2).radius = 2 :=
  (shape_value_semantics 2 1 1 1 1).1 ⟨2⟩ (by rw [circle_validate_eq, if_pos]; norm_num)

/-- C8: for every validly constructed shape instance (all fields satisfying
their > 0 invariant), `area()` and `volume()` return non-negative values.
(They are pure functions of the instance's fields by construction of the
embedding: each is a function of the record alone, with no other state.) -/
theorem area_volume_nonneg (shape : Shape) (hv : shape.valid) :
    0 ≤ shape.area ∧ 0 ≤ shape.volume := by
  cases shape with
  | circle c =>
    have hr : (0 : ℝ) < (c.radius : ℝ) := by exact_mod_cast hv
    constructor
    · have := Real.pi_pos
      simp only [Shape.area, Circle.area]
      positivity
    · have := Real.pi_pos
      simp only [Shape.volume, Circle.volume]
      positivity
  | square s =>
    have hs : (0 : ℝ) < (s.side : ℝ) := by exact_mod_cast hv
    exact ⟨by simp only [Shape.area, Square.area]; positivity,
           by simp only [Shape.volume, Square.volume]; positivity⟩
  | triangle t =>
    have hb : (0 : ℝ) < (t.base : ℝ) := by exact_mod_cast hv.1
    have hh : (0 : ℝ) < (t.height : ℝ) := by exact_mod_cast hv.2
    exact ⟨by simp only [Shape.area, Triangle.area]; positivity,
           by simp only [Shape.volume, Triangle.volume]; positivity⟩
  | cube c =>
    have hs : (0 : ℝ) < (c.side : ℝ) := by exact_mod_cast hv
    exact ⟨by simp only [Shape.area, Cube.area]; positivity,
           by simp only [Shape.volume, Cube.volume]; positivity⟩

/-- Witness for C8 on a concrete valid circle of radius 5. -/
theorem area_volume_nonneg_witness :
    0 ≤ Shape.area (Shape.circle ⟨5⟩) ∧ 0 ≤ Shape.volume (Shape.circle ⟨5⟩) :=
  area_volume_nonneg (Shape.circle ⟨5⟩) (by norm_num [Shape.valid])

/-- C9: `calculate_area shape` returns `shape.area()` (and
`calculate_volume shape` returns `shape.volume()`) with no diagnostic
emitted, and the `except ValidationError` handler the wrappers are built
from maps a successful computation to its value and a raised
`ValidationError` to the sentinel 0.0 plus the printed `e.json()`
diagnostic, instead of propagating the error. -/
theorem calculate_wrappers (shape : Shape) (a : ℝ) (e : ValidationError) :
    calculate_area shape = (shape.area, none)
  ∧ calculate_volume shape = (shape.volume, none)
  ∧ handleValidation (Except.ok a) = (a, none)
  ∧ handleValidation (Except.error e) = (0, some e.json) :=
  ⟨rfl, rfl, rfl, rfl⟩

/-- C10: for every validly constructed shape, no `ValidationError` arises
during `area()`/`volume()` evaluation — the try-block computations never
return an error — so the handler's error branch is unreachable and each
wrapper returns exactly `shape.area()` resp. `shape.volume()`, never the
0.0-plus-diagnostic sentinel. -/
theorem wrappers_never_catch (shape : Shape) (_hv : shape.valid) :
    (∀ e, tryArea shape ≠ Except.error e)
  ∧ (∀ e, tryVolume shape ≠ Except.error e)
  ∧ calculate_area shape = (shape.area, none)
  ∧ calculate_volume shape = (shape.volume, none) := by
  refine ⟨fun e he => ?_, fun e he => ?_, rfl, rfl⟩
  · simp [tryArea] at he
  · simp [tryVolume] at he

/-- Witness for C10 on the concrete valid square of side 4. -/
theorem wrappers_never_catch_witness :
    calculate_area (Shape.square ⟨4⟩) = (Shape.area (Shape.square ⟨4⟩), none) :=
  (wrappers_never_catch (Shape.square ⟨4⟩) (by norm_num [Shape.valid])).2.2.1

end Calculator
